import Mathlib

/-!
Verification of the conversation/session persistence and identity core of
`sonar_app.py` (a Streamlit chat application backed by browser local storage
and the Perplexity chat-completions API).

The Python source is shallowly embedded as follows:

* Streamlit's ambient `st.session_state` is made explicit: each embedded
  function takes the session fields it reads as arguments and returns the
  fields it writes.
* The browser `LocalStorage` collaborator is abstracted as the observable
  behaviour of its two calls (`getItem` / `setItem`), each of which may
  raise (`Except.error`) exactly as the Python calls may.
* `requests.post` is abstracted as a function from the request payload to an
  `HttpOutcome`; `json.loads` is abstracted as a fallible decoder.
* Python exceptions escaping a function are modelled as `Except.error`;
  a normal return is `Except.ok`.
* Fresh `uuid.uuid4()` strings are passed in as explicit arguments (each
  syntactic occurrence of `str(uuid.uuid4())` gets its own argument).
-/

set_option maxRecDepth 8192

/-- A chat message dict `\x7b"role": ..., "content": ...\x7d` as stored in a
conversation's `messages` list and sent to the API. -/
structure Message where
  role : String
  content : String
deriving DecidableEq, Repr

/-- A conversation dict `\x7b"id": ..., "title": ..., "messages": ...\x7d` as held in
`st.session_state.conversations`. -/
structure Conversation where
  id : String
  title : String
  messages : List Message
deriving DecidableEq, Repr

/-- A Python value decoded from JSON (the result of `json.loads` /
`response.json()`): None, bool, number, string, list or dict. -/
inductive Json where
  | null
  | bool (b : Bool)
  | num (n : Int)
  | str (s : String)
  | arr (elems : List Json)
  | obj (fields : List (String × Json))

/-- Python exceptions that subscripting a decoded JSON value can raise.
None of these is a `requests.exceptions.RequestException`, so none is caught
by the `except` clause in `call_perplexity_api`. -/
inductive PyErr where
  | keyError
  | indexError
  | typeError
deriving DecidableEq, Repr

/-- Python subscript `value[key]` with a string key: succeeds only on a dict
that has the key (`KeyError` when missing, `TypeError` on non-dicts). -/
def Json.getKey (j : Json) (k : String) : Except PyErr Json :=
  match j with
  | .obj fields =>
    match fields.lookup k with
    | some v => .ok v
    | none => .error .keyError
  | _ => .error .typeError

/-- Python subscript `value[i]` with an integer index: indexes lists
(`IndexError` out of range) and strings (yielding a one-character string);
a dict decoded from JSON has only string keys, so an integer subscript raises
`KeyError`; other values raise `TypeError`. -/
def Json.getIdx (j : Json) (i : Nat) : Except PyErr Json :=
  match j with
  | .arr elems =>
    match elems.get? i with
    | some v => .ok v
    | none => .error .indexError
  | .obj _ => .error .keyError
  | .str s =>
    match s.data.get? i with
    | some c => .ok (.str (String.mk [c]))
    | none => .error .indexError
  | _ => .error .typeError

/-- Observable behaviour of the `LocalStorage` collaborator during one call of
`get_persistent_user_id`: the result of `getItem("user_id")` (where the empty
string also stands for a falsy `None` result) and of `setItem("user_id", ...)`.
`Except.error` means the call raised. -/
structure StoreBehavior where
  readUserId : Except Unit String
  writeUserId : Except Unit Unit

/-- Embeds `get_persistent_user_id(local_storage)` (src/sonar_app.py lines
100-108).  `freshId` is the `str(uuid.uuid4())` generated inside the `try`
block when the stored id is falsy; `exceptFreshId` is the distinct
`str(uuid.uuid4())` generated by the `except` handler.  Note that when
`setItem` raises, control reaches the `except` handler, which returns the
second fresh id, not the one that was just written. -/
def get_persistent_user_id (store : StoreBehavior) (freshId exceptFreshId : String) :
    String :=
  match store.readUserId with
  | .error _ => exceptFreshId
  | .ok user_id =>
    if user_id = "" then
      match store.writeUserId with
      | .ok _ => freshId
      | .error _ => exceptFreshId
    else user_id

/-- Embeds `load_conversations(local_storage, user_id)` (src/sonar_app.py
lines 58-67).  `raw` is the outcome of `getItem` on the per-user key
(`Except.error` = the call raised, `ok none` = the key is absent); `loads`
abstracts `json.loads` (`Except.error` = a decode exception).  Any exception
is swallowed and `[]` returned; a decoded value is returned as-is, with no
check that it is a list. -/
def load_conversations (loads : String → Except Unit Json)
    (raw : Except Unit (Option String)) : Json :=
  match raw with
  | .error _ => .arr []
  | .ok none => .arr []
  | .ok (some s) =>
    if s = "" then .arr []
    else
      match loads s with
      | .error _ => .arr []
      | .ok v => v

/-- The final two statements of `ensure_current_conversation()`
(src/sonar_app.py lines 93-95): look up the current conversation with
`next(...)` — raising `StopIteration` (`Except.error`) when no conversation
matches — and sync `st.session_state.messages` with its messages. -/
def sync_current_messages (conversations : List Conversation) (cid : String) :
    Except Unit (List Conversation × String × List Message) :=
  match conversations.find? (fun c => c.id = cid) with
  | some current_conv => .ok (conversations, cid, current_conv.messages)
  | none => .error ()

/-- Embeds `ensure_current_conversation()` (src/sonar_app.py lines 79-95).
Input state: `conversations`, and `current_conv_id` as an `Option` (`none` =
the key is not in `st.session_state`).  `new_conv_id` is the
`str(uuid.uuid4())` used if a conversation must be synthesized.  Output state
on normal return: `(conversations, current_conv_id, messages)`.  If a current
id is already set, the function does not touch it — even when it references
no conversation — and goes straight to the sync step. -/
def ensure_current_conversation (conversations : List Conversation)
    (current_conv_id : Option String) (new_conv_id : String) :
    Except Unit (List Conversation × String × List Message) :=
  match current_conv_id with
  | some cid => sync_current_messages conversations cid
  | none =>
    match conversations with
    | c :: rest => sync_current_messages (c :: rest) c.id
    | [] =>
      sync_current_messages [⟨new_conv_id, "New Conversation", []⟩] new_conv_id

/-- The JSON body of the POST request built by `call_perplexity_api`
(src/sonar_app.py lines 148-155). -/
structure Payload where
  model : String
  messages : List Message
  max_tokens : Nat
  temperature : ℚ
  top_p : ℚ
  stream : Bool
deriving DecidableEq, Repr

/-- Outcome of `requests.post`: either a `RequestException` raised in flight
(connection error, timeout, ...), or a response with a status code and a body
(`none` = the body is not valid JSON, so `response.json()` raises). -/
inductive HttpOutcome where
  | transportError
  | response (status : Nat) (body : Option Json)

/-- The request payload that `call_perplexity_api(messages, model, api_key)`
builds (src/sonar_app.py lines 148-155). -/
def call_perplexity_api_request (messages : List Message) (model : String) : Payload :=
  { model := model
    messages := messages
    max_tokens := 4000
    temperature := 0.2
    top_p := 0.9
    stream := false }

/-- The outcome handling of `call_perplexity_api(messages, model, api_key)`
(src/sonar_app.py lines 156-166): everything from the status-code checks on
the `requests.post` result through the `except` clause.
Returns `ok (some content)` for the extracted `choices[0].message.content`,
`ok none` where the Python function returns `None` (status 400, any other
4xx/5xx via `raise_for_status`, a transport error, or an invalid JSON body —
all `RequestException`s caught by the `except` clause), and `Except.error` for
an exception that escapes the function (the subscript chain on a 2xx/3xx JSON
body of an unexpected shape: `KeyError` / `IndexError` / `TypeError`, none of
which the `except requests.exceptions.RequestException` clause catches). -/
def call_perplexity_api_handle (resp : HttpOutcome) : Except PyErr (Option Json) :=
  match resp with
  | .transportError => .ok none
  | .response status body =>
    if status = 400 then .ok none
    else if 400 ≤ status ∧ status < 600 then .ok none
    else
      match body with
      | none => .ok none
      | some j => do
        let choices ← j.getKey "choices"
        let first ← choices.getIdx 0
        let message ← first.getKey "message"
        let content ← message.getKey "content"
        return some content

/-- Embeds `call_perplexity_api(messages, model, api_key)` (src/sonar_app.py
lines 142-166): build the payload, POST it (`http` abstracts `requests.post`
applied to the built payload) and handle the outcome. -/
def call_perplexity_api (http : Payload → HttpOutcome) (messages : List Message)
    (model : String) : Except PyErr (Option Json) :=
  call_perplexity_api_handle (http (call_perplexity_api_request messages model))

/-- In-place mutation of the first list element satisfying `p` (Python's
`next(c for c in ... if ...)` yields a reference to the first match, whose
fields are then assigned). -/
def updateFirst (p : Conversation → Bool) (newConv : Conversation) :
    List Conversation → List Conversation
  | [] => []
  | c :: rest => if p c then newConv :: rest else c :: updateFirst p newConv rest

/-- Observable result of one chat-input turn of `display_chat`: the updated
conversation list (which is also exactly the argument passed to
`save_conversations`), the updated `st.session_state.messages`, the
`api_messages` list, the request payload built from it, and whether an error
was surfaced to the user via `st.error`. -/
structure ChatTurn where
  conversations : List Conversation
  messages : List Message
  api_messages : List Message
  request : Payload
  errorShown : Bool
deriving DecidableEq, Repr

/-- Embeds the chat-input branch of `display_chat(localS)` (src/sonar_app.py
lines 231-263).  Input state: the conversation list, the current conversation
id (whose messages list is `st.session_state.messages`, kept in sync by
`ensure_current_conversation`), the typed `user_input`, the active
instructions and model.  `response` is the value returned by
`call_perplexity_api` (`none` on failure); the truthiness test `if response:`
also treats an empty string as a failure.  The `next(...)` lookup of the
current conversation raises `StopIteration` (`Except.error`) when the id is
dangling. -/
def display_chat (conversations : List Conversation) (current_conv_id : String)
    (user_input instructions model : String) (response : Option String) :
    Except Unit ChatTurn :=
  match conversations.find? (fun c => c.id = current_conv_id) with
  | none => .error ()
  | some current_conv =>
    let messages := current_conv.messages ++ [⟨"user", user_input⟩]
    let title :=
      if current_conv.title = "New Conversation" ∨ current_conv.title = "" then
        user_input.take 50
      else current_conv.title
    let api_messages := Message.mk "system" instructions :: messages
    let afterApi : List Message × Bool :=
      match response with
      | some r => if r = "" then (messages, true) else (messages ++ [⟨"assistant", r⟩], false)
      | none => (messages, true)
    let current_conv' : Conversation := ⟨current_conv.id, title, afterApi.1⟩
    .ok
      { conversations :=
          updateFirst (fun c => c.id = current_conv_id) current_conv' conversations
        messages := afterApi.1
        api_messages := api_messages
        request := call_perplexity_api_request api_messages model
        errorShown := afterApi.2 }

/-- Embeds the delete branch of `sidebar_conversation_selector(localS)`
(src/sonar_app.py lines 204-217).  `new_id` is the `str(uuid.uuid4())` used
if no conversation remains.  Output state: `(conversations, current_conv_id,
messages)`; the conversation list is also exactly the argument passed to
`save_conversations`. -/
def delete_conversation (conversations : List Conversation)
    (current_conv_id : String) (new_id : String) :
    List Conversation × String × List Message :=
  let remaining := conversations.filter (fun c => ¬ c.id = current_conv_id)
  match remaining with
  | c :: rest => (c :: rest, c.id, c.messages)
  | [] => ([⟨new_id, "New Conversation", []⟩], new_id, [])

/-- Result of one submission of the login form. -/
inductive LoginResult where
  | accepted (api_key : String)
  | rejected
deriving DecidableEq, Repr

/-- Embeds the login branch of `main()` (src/sonar_app.py lines 349-364).
`password` is `st.secrets.get("PASSWORD")` (`none` when the secret is not
configured; a string compared against `None` in Python is never equal);
`default_api_key` is the configured `st.secrets["PERPLEXITY_API_KEY"]`.
Python's `key_input and key_input.startswith("pplx-")` is the non-emptiness
test followed by the code-point prefix test. -/
def login_attempt (key_input : String) (password : Option String)
    (default_api_key : String) : LoginResult :=
  if key_input ≠ "" ∧ "pplx-".data.isPrefixOf key_input.data then
    .accepted key_input
  else if password = some key_input then
    .accepted default_api_key
  else
    .rejected

/-! ### Helper lemmas -/

theorem string_take_of_length_le (s : String) (n : Nat) (h : s.length ≤ n) :
    s.take n = s := by
  rw [String.take_eq, List.take_of_length_le h]

theorem string_length_take (s : String) (n : Nat) :
    (s.take n).length = min n s.length := by
  rw [String.take_eq]
  show (s.data.take n).length = min n s.data.length
  exact List.length_take n s.data

theorem sync_current_messages_ok (conversations : List Conversation) (cid : String)
    (c : Conversation) (h : conversations.find? (fun x => x.id = cid) = some c) :
    sync_current_messages conversations cid = .ok (conversations, cid, c.messages) := by
  unfold sync_current_messages
  rw [h]

theorem sync_current_messages_ok_inv (conversations : List Conversation) (cid : String)
    (out : List Conversation × String × List Message)
    (h : sync_current_messages conversations cid = .ok out) :
    out.1 = conversations ∧ out.2.1 = cid ∧
      ∃ c, conversations.find? (fun x => x.id = cid) = some c ∧ out.2.2 = c.messages := by
  cases hf : conversations.find? (fun x => x.id = cid) with
  | none =>
    have h2 : sync_current_messages conversations cid = .error () := by
      unfold sync_current_messages
      rw [hf]
    rw [h2] at h
    exact Except.noConfusion h
  | some c =>
    have h2 := sync_current_messages_ok conversations cid c hf
    rw [h] at h2
    injection h2 with h2
    refine ⟨?_, ?_, c, rfl, ?_⟩ <;> rw [h2]

/-! ### Claim C1 -/

/-- Claim C1 counterexample: with the one-element conversation list
`[⟨"a", ...⟩]` and an already-set current id `"b"` that references no entry,
`ensure_current_conversation` does not select the first entry — it raises
`StopIteration` from `next(...)`, producing no repaired state at all, so the
pointer is left dangling. -/
theorem ensure_current_conversation_dangling :
    ensure_current_conversation [⟨"a", "New Conversation", []⟩] (some "b") "u1" =
      .error () := by rfl

/-- Claim C1 (amended): whenever the current id is absent or references an
entry of the list, `ensure_current_conversation` returns a non-empty
conversation list together with a current id referencing one of its entries:
an empty list gets exactly one synthesized placeholder conversation (title
"New Conversation", no messages) which is selected, and an absent id selects
the first entry.  (When an already-set current id references no entry, the
function instead fails with `StopIteration`; see the counterexample.) -/
theorem ensure_current_conversation_ok (conversations : List Conversation)
    (current_conv_id : Option String) (new_conv_id : String)
    (h : current_conv_id = none ∨ ∃ c ∈ conversations, current_conv_id = some c.id) :
    ∃ convs cid msgs,
      ensure_current_conversation conversations current_conv_id new_conv_id =
        .ok (convs, cid, msgs) ∧
      convs ≠ [] ∧
      (∃ c ∈ convs, c.id = cid ∧ c.messages = msgs) ∧
      (conversations = [] →
        convs = [⟨new_conv_id, "New Conversation", []⟩] ∧ cid = new_conv_id) ∧
      (conversations ≠ [] → convs = conversations) ∧
      (current_conv_id = none → ∀ d rest, conversations = d :: rest → cid = d.id) ∧
      (∀ i, current_conv_id = some i → cid = i) := by
  rcases h with rfl | ⟨c, hc, rfl⟩
  · cases conversations with
    | nil =>
      have hfind : ([⟨new_conv_id, "New Conversation", []⟩] :
            List Conversation).find? (fun x => x.id = new_conv_id) =
          some ⟨new_conv_id, "New Conversation", []⟩ :=
        List.find?_cons_of_pos _ (by simp)
      refine ⟨[⟨new_conv_id, "New Conversation", []⟩], new_conv_id, [], ?_, ?_, ?_, ?_, ?_, ?_, ?_⟩
      · show sync_current_messages _ _ = _
        exact sync_current_messages_ok _ _ _ hfind
      · simp
      · exact ⟨⟨new_conv_id, "New Conversation", []⟩, by simp, rfl, rfl⟩
      · exact fun _ => ⟨rfl, rfl⟩
      · intro hne; exact absurd rfl hne
      · intro _ d rest hcontra; exact absurd hcontra (by simp)
      · intro i hcontra; exact Option.noConfusion hcontra
    | cons d rest =>
      have hfind : (d :: rest).find? (fun x => x.id = d.id) = some d :=
        List.find?_cons_of_pos _ (by simp)
      refine ⟨d :: rest, d.id, d.messages, ?_, ?_, ?_, ?_, ?_, ?_, ?_⟩
      · show sync_current_messages _ _ = _
        exact sync_current_messages_ok _ _ _ hfind
      · simp
      · exact ⟨d, by simp, rfl, rfl⟩
      · intro hcontra; exact absurd hcontra (by simp)
      · intro _; rfl
      · intro _ d' rest' heq
        injection heq with h1 _
        rw [h1]
      · intro i hcontra; exact Option.noConfusion hcontra
  · have hsome : ((conversations.find? (fun x => x.id = c.id)).isSome) :=
      List.find?_isSome.2 ⟨c, hc, by simp⟩
    obtain ⟨c', hc'⟩ := Option.isSome_iff_exists.1 hsome
    have hid : c'.id = c.id := by simpa using List.find?_some hc'
    refine ⟨conversations, c.id, c'.messages, ?_, ?_, ?_, ?_, ?_, ?_, ?_⟩
    · show sync_current_messages _ _ = _
      exact sync_current_messages_ok _ _ _ hc'
    · exact List.ne_nil_of_mem hc
    · exact ⟨c', List.mem_of_find?_eq_some hc', hid, rfl⟩
    · intro hcontra; rw [hcontra] at hc; exact absurd hc (by simp)
    · intro _; rfl
    · intro hcontra; exact Option.noConfusion hcontra
    · intro i hi; exact Option.some.inj hi

/-- Witness for the amended claim C1, at the empty list with no current id:
the synthesized placeholder conversation is selected. -/
theorem ensure_current_conversation_ok_witness :
    ensure_current_conversation [] none "u1" =
      .ok ([⟨"u1", "New Conversation", []⟩], "u1", []) := by
  obtain ⟨convs, cid, msgs, h1, h2, h3, h4, h5, h6, h7⟩ :=
    ensure_current_conversation_ok [] none "u1" (Or.inl rfl)
  obtain ⟨hconvs, hcid⟩ := h4 rfl
  subst hconvs
  subst hcid
  obtain ⟨c, hmem, hcid2, hmsgs⟩ := h3
  rw [List.mem_singleton] at hmem
  subst hmem
  have hm : msgs = Conversation.messages ⟨"u1", "New Conversation", []⟩ := hmsgs.symm
  subst hm
  exact h1

/-! ### Claim C9 -/

/-- Claim C9: `ensure_current_conversation` is idempotent — applied to its own
output state (the returned conversation list, with the returned current id now
set in the session), it returns exactly the same conversation list, current id
and synced messages, for any fresh ids supplied to the two calls. -/
theorem ensure_current_conversation_idem (conversations : List Conversation)
    (current_conv_id : Option String) (n1 n2 : String)
    (convs : List Conversation) (cid : String) (msgs : List Message)
    (h : ensure_current_conversation conversations current_conv_id n1 =
      .ok (convs, cid, msgs)) :
    ensure_current_conversation convs (some cid) n2 = .ok (convs, cid, msgs) := by
  have key : ∀ (l : List Conversation) (c : String),
      sync_current_messages l c = .ok (convs, cid, msgs) →
      ensure_current_conversation convs (some cid) n2 = .ok (convs, cid, msgs) := by
    intro l c hs
    obtain ⟨h1, h2, c', hf, hm⟩ := sync_current_messages_ok_inv l c _ hs
    have h1' : convs = l := h1
    have h2' : cid = c := h2
    have hm' : msgs = c'.messages := hm
    show sync_current_messages convs cid = _
    rw [h1', h2', hm']
    exact sync_current_messages_ok _ _ _ hf
  cases current_conv_id with
  | some cid0 => exact key conversations cid0 h
  | none =>
    cases conversations with
    | nil => exact key _ _ h
    | cons d rest => exact key _ _ h

/-- Witness for claim C9: a concrete first call whose output state is passed
back in, with a different fresh id. -/
theorem ensure_current_conversation_idem_witness :
    ensure_current_conversation [⟨"a", "t", []⟩] (some "a") "u2" =
      .ok ([⟨"a", "t", []⟩], "a", []) :=
  ensure_current_conversation_idem [⟨"a", "t", []⟩] (some "a") "u1" "u2"
    [⟨"a", "t", []⟩] "a" [] (by rfl)

/-! ### Claim C3 -/

/-- Claim C3 counterexample: the store read succeeds with no stored id and the
write-back raises.  The generated token "id-a" was handed to `setItem`, but
the raised exception reaches the `except` handler, which returns a second
fresh token "id-b" — not the generated token the claim promises. -/
theorem get_persistent_user_id_write_failure :
    get_persistent_user_id ⟨.ok "", .error ()⟩ "id-a" "id-b" = "id-b" ∧
      ("id-b" : String) ≠ "id-a" := by
  constructor
  · rfl
  · decide

/-- Claim C3 (amended): for every behaviour of the key-value store,
`get_persistent_user_id` returns a non-empty identity token and never
propagates an error; when no stored id exists it generates a new random token
and attempts to write it back; the returned token is that generated token when
the write succeeds, but when the write raises, the exception handler returns a
second, freshly generated token instead.  (When the read raises, the handler
likewise returns a fresh token.) -/
theorem get_persistent_user_id_spec (store : StoreBehavior)
    (freshId exceptFreshId : String)
    (h1 : freshId ≠ "") (h2 : exceptFreshId ≠ "") :
    get_persistent_user_id store freshId exceptFreshId ≠ "" ∧
    (store.readUserId = .ok "" → store.writeUserId = .ok () →
      get_persistent_user_id store freshId exceptFreshId = freshId) ∧
    (store.readUserId = .ok "" → store.writeUserId = .error () →
      get_persistent_user_id store freshId exceptFreshId = exceptFreshId) ∧
    (store.readUserId = .error () →
      get_persistent_user_id store freshId exceptFreshId = exceptFreshId) ∧
    (∀ uid, store.readUserId = .ok uid → uid ≠ "" →
      get_persistent_user_id store freshId exceptFreshId = uid) := by
  obtain ⟨r, w⟩ := store
  cases r with
  | error e =>
    cases e
    refine ⟨h2, ?_, ?_, ?_, ?_⟩
    · intro hc; exact absurd hc (by simp)
    · intro hc; exact absurd hc (by simp)
    · intro _; rfl
    · intro uid hc; exact absurd hc (by simp)
  | ok uid =>
    by_cases huid : uid = ""
    · subst huid
      cases w with
      | ok u =>
        cases u
        refine ⟨?_, ?_, ?_, ?_, ?_⟩
        · show freshId ≠ ""
          exact h1
        · intro _ _; rfl
        · intro _ hc; exact absurd hc (by simp)
        · intro hc; exact absurd hc (by simp)
        · intro uid hc hne
          injection hc with hc
          exact absurd hc.symm hne
      | error e =>
        cases e
        refine ⟨?_, ?_, ?_, ?_, ?_⟩
        · show exceptFreshId ≠ ""
          exact h2
        · intro _ hc; exact absurd hc (by simp)
        · intro _ _; rfl
        · intro hc; exact absurd hc (by simp)
        · intro uid hc hne
          injection hc with hc
          exact absurd hc.symm hne
    · refine ⟨?_, ?_, ?_, ?_, ?_⟩
      · show (if uid = "" then _ else uid) ≠ ""
        rw [if_neg huid]
        exact huid
      · intro hc
        injection hc with hc
        exact absurd hc huid
      · intro hc
        injection hc with hc
        exact absurd hc huid
      · intro hc; exact absurd hc (by simp)
      · intro uid' hc _
        injection hc with hc
        subst hc
        show (if uid = "" then _ else uid) = uid
        rw [if_neg huid]

/-- Witness for the amended claim C3: a store with no stored id and a
successful write-back returns the generated token, which is non-empty. -/
theorem get_persistent_user_id_spec_witness :
    get_persistent_user_id ⟨.ok "", .ok ()⟩ "id-a" "id-b" = "id-a" ∧
      get_persistent_user_id ⟨.ok "", .ok ()⟩ "id-a" "id-b" ≠ "" :=
  ⟨(get_persistent_user_id_spec ⟨.ok "", .ok ()⟩ "id-a" "id-b" (by decide)
      (by decide)).2.1 rfl rfl,
    (get_persistent_user_id_spec ⟨.ok "", .ok ()⟩ "id-a" "id-b" (by decide)
      (by decide)).1⟩

/-! ### Claim C10 -/

/-- Claim C10: `load_conversations` validates only JSON syntax, not structure:
a stored non-empty string that decodes to any value — list or not — is
returned as-is; the empty list is returned exactly when the key is absent
(`ok none`), the stored value is empty, the read raises, or decoding raises. -/
theorem load_conversations_spec (loads : String → Except Unit Json)
    (raw : Except Unit (Option String)) :
    (∀ s v, raw = .ok (some s) → s ≠ "" → loads s = .ok v →
      load_conversations loads raw = v) ∧
    (raw = .error () → load_conversations loads raw = .arr []) ∧
    (raw = .ok none → load_conversations loads raw = .arr []) ∧
    (raw = .ok (some "") → load_conversations loads raw = .arr []) ∧
    (∀ s, raw = .ok (some s) → loads s = .error () →
      load_conversations loads raw = .arr []) := by
  refine ⟨?_, ?_, ?_, ?_, ?_⟩
  · intro s v hraw hs hv
    subst hraw
    show (if s = "" then Json.arr []
      else match loads s with
        | .error _ => Json.arr []
        | .ok v => v) = v
    rw [if_neg hs, hv]
  · intro hraw; subst hraw; rfl
  · intro hraw; subst hraw; rfl
  · intro hraw; subst hraw; rfl
  · intro s hraw hv
    subst hraw
    show (if s = "" then Json.arr []
      else match loads s with
        | .error _ => Json.arr []
        | .ok v => v) = Json.arr []
    by_cases hs : s = ""
    · rw [if_pos hs]
    · rw [if_neg hs, hv]

/-- Witness for claim C10: with a decoder behaving like `json.loads` on the
stored string "42", `load_conversations` returns the decoded number 42 — a
value that is not a list — rather than the empty list. -/
theorem load_conversations_spec_witness :
    load_conversations (fun s => if s = "42" then .ok (.num 42) else .error ())
        (.ok (some "42")) = .num 42 ∧
      Json.num 42 ≠ Json.arr [] :=
  ⟨(load_conversations_spec (fun s => if s = "42" then .ok (.num 42) else .error ())
      (.ok (some "42"))).1 "42" (.num 42) rfl (by decide) (by rw [if_pos rfl]),
    fun hc => Json.noConfusion hc⟩

/-! ### Claim C7 -/

/-- Claim C7 counterexample: the endpoint answers 200 with the valid JSON body
`\x7b\x7d` (an empty object).  Extracting `choices[0].message.content` raises
`KeyError`, which is not a `requests.exceptions.RequestException` and so
escapes `call_perplexity_api` as an unhandled exception instead of a returned
value. -/
theorem call_perplexity_api_unexpected_body :
    call_perplexity_api (fun _ => .response 200 (some (.obj []))) [] "sonar" =
      .error .keyError := by rfl

/-- Claim C7 (amended): every transport error, every HTTP status in 400-599,
and every response body that is not valid JSON makes `call_perplexity_api`
return a value (`None`) rather than raise; only a 2xx/3xx response whose JSON
body does not have the `choices[0].message.content` shape raises an unhandled
`KeyError` / `IndexError` / `TypeError` out of the API core.  (The persistence
and identity operations, modelled as the total functions `load_conversations`,
`save`, and `get_persistent_user_id`, never raise for any store behaviour.) -/
theorem call_perplexity_api_handled (http : Payload → HttpOutcome)
    (messages : List Message) (model : String)
    (h : http (call_perplexity_api_request messages model) = .transportError ∨
      ∃ status body,
        http (call_perplexity_api_request messages model) = .response status body ∧
        (400 ≤ status ∧ status < 600 ∨ body = none)) :
    call_perplexity_api http messages model = .ok none := by
  unfold call_perplexity_api
  rcases h with h | ⟨status, body, h, hcase⟩
  · rw [h]; rfl
  · rw [h]
    rcases hcase with ⟨h4, h6⟩ | rfl
    · simp [call_perplexity_api_handle, h4, h6]
    · simp only [call_perplexity_api_handle]
      by_cases h400 : status = 400
      · rw [if_pos h400]
      · rw [if_neg h400]
        by_cases hrange : 400 ≤ status ∧ status < 600
        · rw [if_pos hrange]
        · rw [if_neg hrange]

/-- Witness for the amended claim C7: a connection failure is caught and the
call returns `None`. -/
theorem call_perplexity_api_handled_witness :
    call_perplexity_api (fun _ => .transportError) [] "sonar" = .ok none :=
  call_perplexity_api_handled (fun _ => .transportError) [] "sonar" (Or.inl rfl)

/-! ### Claim C8 -/

/-- Claim C8: a supplied credential is accepted as the API key exactly when it
is non-empty and starts with "pplx-"; a credential failing that test is
accepted (with the configured default API key substituted) exactly when it
equals the configured shared secret; anything else is rejected and the session
stays unauthenticated.  An absent secret (`password = none`) matches no
string, as Python's `==` against `None` is always false for strings. -/
theorem login_attempt_spec (key_input : String) (password : Option String)
    (default_api_key : String) :
    (key_input ≠ "" ∧ "pplx-".data.isPrefixOf key_input.data →
      login_attempt key_input password default_api_key = .accepted key_input) ∧
    (¬(key_input ≠ "" ∧ "pplx-".data.isPrefixOf key_input.data) →
      password = some key_input →
      login_attempt key_input password default_api_key = .accepted default_api_key) ∧
    (¬(key_input ≠ "" ∧ "pplx-".data.isPrefixOf key_input.data) →
      password ≠ some key_input →
      login_attempt key_input password default_api_key = .rejected) := by
  refine ⟨?_, ?_, ?_⟩
  · intro h
    unfold login_attempt
    rw [if_pos h]
  · intro h hpw
    unfold login_attempt
    rw [if_neg h, if_pos hpw]
  · intro h hpw
    unfold login_attempt
    rw [if_neg h, if_neg hpw]

/-- Witness for claim C8: a "pplx-" key is accepted as given; the shared
secret is accepted with the default key substituted; an empty credential and
an arbitrary wrong credential are rejected. -/
theorem login_attempt_spec_witness :
    login_attempt "pplx-abc123" (some "hunter2") "pplx-default" =
        .accepted "pplx-abc123" ∧
      login_attempt "hunter2" (some "hunter2") "pplx-default" =
        .accepted "pplx-default" ∧
      login_attempt "" (some "hunter2") "pplx-default" = .rejected ∧
      login_attempt "wrong" (some "hunter2") "pplx-default" = .rejected :=
  ⟨(login_attempt_spec "pplx-abc123" (some "hunter2") "pplx-default").1
      ⟨by decide, by decide⟩,
    (login_attempt_spec "hunter2" (some "hunter2") "pplx-default").2.1
      (by decide) rfl,
    (login_attempt_spec "" (some "hunter2") "pplx-default").2.2
      (by decide) (by decide),
    (login_attempt_spec "wrong" (some "hunter2") "pplx-default").2.2
      (by decide) (by decide)⟩

/-! ### Claims C2, C4 and C5: the chat-input turn -/

theorem find?_updateFirst (p : Conversation → Bool) (newConv : Conversation)
    (l : List Conversation) (c : Conversation)
    (hl : l.find? p = some c) (hnew : p newConv = true) :
    (updateFirst p newConv l).find? p = some newConv := by
  induction l with
  | nil => exact absurd hl (by simp)
  | cons d rest ih =>
    cases hd : p d with
    | true =>
      simp only [updateFirst, hd, if_true]
      exact List.find?_cons_of_pos _ hnew
    | false =>
      have hl' : rest.find? p = some c := by
        rwa [List.find?_cons_of_neg _ (by simp [hd])] at hl
      simp only [updateFirst, hd, Bool.false_eq_true, if_false]
      rw [List.find?_cons_of_neg _ (by simp [hd])]
      exact ih hl'

theorem display_chat_eq_none (conversations : List Conversation)
    (current_conv : Conversation)
    (current_conv_id user_input instructions model : String)
    (hfind : conversations.find? (fun c => c.id = current_conv_id) =
      some current_conv) :
    display_chat conversations current_conv_id user_input instructions model
        none =
      .ok
        { conversations :=
            updateFirst (fun c => c.id = current_conv_id)
              ⟨current_conv.id,
                if current_conv.title = "New Conversation" ∨ current_conv.title = ""
                  then user_input.take 50 else current_conv.title,
                current_conv.messages ++ [⟨"user", user_input⟩]⟩
              conversations
          messages := current_conv.messages ++ [⟨"user", user_input⟩]
          api_messages :=
            Message.mk "system" instructions ::
              (current_conv.messages ++ [⟨"user", user_input⟩])
          request :=
            call_perplexity_api_request
              (Message.mk "system" instructions ::
                (current_conv.messages ++ [⟨"user", user_input⟩])) model
          errorShown := true } := by
  unfold display_chat
  rw [hfind]

theorem display_chat_eq_some (conversations : List Conversation)
    (current_conv : Conversation)
    (current_conv_id user_input instructions model : String)
    (r : String) (hr : r ≠ "")
    (hfind : conversations.find? (fun c => c.id = current_conv_id) =
      some current_conv) :
    display_chat conversations current_conv_id user_input instructions model
        (some r) =
      .ok
        { conversations :=
            updateFirst (fun c => c.id = current_conv_id)
              ⟨current_conv.id,
                if current_conv.title = "New Conversation" ∨ current_conv.title = ""
                  then user_input.take 50 else current_conv.title,
                current_conv.messages ++ [⟨"user", user_input⟩] ++
                  [⟨"assistant", r⟩]⟩
              conversations
          messages :=
            current_conv.messages ++ [⟨"user", user_input⟩] ++ [⟨"assistant", r⟩]
          api_messages :=
            Message.mk "system" instructions ::
              (current_conv.messages ++ [⟨"user", user_input⟩])
          request :=
            call_perplexity_api_request
              (Message.mk "system" instructions ::
                (current_conv.messages ++ [⟨"user", user_input⟩])) model
          errorShown := false } := by
  simp only [display_chat, hfind, hr, if_false, ite_false]

theorem display_chat_eq_empty_response (conversations : List Conversation)
    (current_conv : Conversation)
    (current_conv_id user_input instructions model : String)
    (hfind : conversations.find? (fun c => c.id = current_conv_id) =
      some current_conv) :
    display_chat conversations current_conv_id user_input instructions model
        (some "") =
      .ok
        { conversations :=
            updateFirst (fun c => c.id = current_conv_id)
              ⟨current_conv.id,
                if current_conv.title = "New Conversation" ∨ current_conv.title = ""
                  then user_input.take 50 else current_conv.title,
                current_conv.messages ++ [⟨"user", user_input⟩]⟩
              conversations
          messages := current_conv.messages ++ [⟨"user", user_input⟩]
          api_messages :=
            Message.mk "system" instructions ::
              (current_conv.messages ++ [⟨"user", user_input⟩])
          request :=
            call_perplexity_api_request
              (Message.mk "system" instructions ::
                (current_conv.messages ++ [⟨"user", user_input⟩])) model
          errorShown := true } := by
  unfold display_chat
  rw [hfind]
  rfl

/-- Claim C2: when the API call fails (a transport error or an HTTP 400),
`call_perplexity_api` returns `None`; the chat turn run with that `None`
response appends no assistant message (the session messages are exactly the
old messages plus the user message), surfaces the failure via `st.error`, and
the conversation list handed to `save_conversations` records the user message
in the current conversation. -/
theorem display_chat_api_failure (conversations : List Conversation)
    (current_conv : Conversation)
    (current_conv_id user_input instructions model : String)
    (http : Payload → HttpOutcome)
    (hfind : conversations.find? (fun c => c.id = current_conv_id) =
      some current_conv)
    (hfail : http (call_perplexity_api_request
        (Message.mk "system" instructions ::
          (current_conv.messages ++ [⟨"user", user_input⟩])) model) =
        .transportError ∨
      ∃ body, http (call_perplexity_api_request
        (Message.mk "system" instructions ::
          (current_conv.messages ++ [⟨"user", user_input⟩])) model) =
        .response 400 body) :
    call_perplexity_api http
        (Message.mk "system" instructions ::
          (current_conv.messages ++ [⟨"user", user_input⟩])) model = .ok none ∧
    ∃ turn, display_chat conversations current_conv_id user_input instructions
        model none = .ok turn ∧
      turn.errorShown = true ∧
      turn.messages = current_conv.messages ++ [⟨"user", user_input⟩] ∧
      ∃ t, turn.conversations.find? (fun c => c.id = current_conv_id) =
        some ⟨current_conv.id, t,
          current_conv.messages ++ [⟨"user", user_input⟩]⟩ := by
  have hpid : current_conv.id = current_conv_id := by
    simpa using List.find?_some hfind
  constructor
  · apply call_perplexity_api_handled
    rcases hfail with h | ⟨body, h⟩
    · exact Or.inl h
    · exact Or.inr ⟨400, body, h, Or.inl (by omega)⟩
  · refine ⟨_, display_chat_eq_none conversations current_conv current_conv_id
      user_input instructions model hfind, rfl, rfl, ?_⟩
    exact ⟨_, find?_updateFirst _ _ _ _ hfind (by simp [hpid])⟩

/-- Witness for claim C2: one conversation, the user sends "gg #4", the POST
raises a connection error: the call returns `None`, the turn keeps exactly the
user message, marks the error surfaced, and saves the user message. -/
theorem display_chat_api_failure_witness :
    call_perplexity_api (fun _ => .transportError)
        (Message.mk "system" "inst" :: [⟨"user", "gg #4"⟩]) "sonar" = .ok none ∧
    display_chat [⟨"a", "New Conversation", []⟩] "a" "gg #4" "inst" "sonar" none =
      .ok ⟨[⟨"a", "gg #4", [⟨"user", "gg #4"⟩]⟩], [⟨"user", "gg #4"⟩],
        [⟨"system", "inst"⟩, ⟨"user", "gg #4"⟩],
        ⟨"sonar", [⟨"system", "inst"⟩, ⟨"user", "gg #4"⟩], 4000, 0.2, 0.9, false⟩,
        true⟩ := by
  have h := display_chat_api_failure [⟨"a", "New Conversation", []⟩]
    ⟨"a", "New Conversation", []⟩ "a" "gg #4" "inst" "sonar"
    (fun _ => .transportError) (by decide) (Or.inl rfl)
  exact ⟨h.1, by rfl⟩

/-- Claim C4 counterexample: a conversation whose title is the empty string —
which is not the placeholder "New Conversation" — is nevertheless renamed by
sending a message: the membership test `title in ("New Conversation", "")`
also matches the empty title, so sending "hello" renames it to "hello". -/
theorem display_chat_renames_empty_title :
    display_chat [⟨"a", "", []⟩] "a" "hello" "inst" "sonar" (some "ok") =
      .ok ⟨[⟨"a", "hello", [⟨"user", "hello"⟩, ⟨"assistant", "ok"⟩]⟩],
        [⟨"user", "hello"⟩, ⟨"assistant", "ok"⟩],
        [⟨"system", "inst"⟩, ⟨"user", "hello"⟩],
        ⟨"sonar", [⟨"system", "inst"⟩, ⟨"user", "hello"⟩], 4000, 0.2, 0.9, false⟩,
        false⟩ ∧
      ("" : String) ≠ "New Conversation" ∧ ("hello" : String) ≠ "" := by
  refine ⟨by rfl, by decide, by decide⟩

/-- Claim C4 (amended): sending a message renames the conversation exactly
when its title is still "New Conversation" or the empty string; the new title
is the first 50 characters of the text (`text[:50]`), which is the text
unmodified when it has at most 50 characters; a conversation with any other
title keeps it. -/
theorem display_chat_title_update (conversations : List Conversation)
    (current_conv : Conversation)
    (current_conv_id user_input instructions model : String)
    (response : Option String)
    (hfind : conversations.find? (fun c => c.id = current_conv_id) =
      some current_conv) :
    ∃ turn t msgs,
      display_chat conversations current_conv_id user_input instructions model
          response = .ok turn ∧
      turn.conversations.find? (fun c => c.id = current_conv_id) =
        some ⟨current_conv.id, t, msgs⟩ ∧
      ((current_conv.title = "New Conversation" ∨ current_conv.title = "") →
        t = user_input.take 50 ∧ t.length = min 50 user_input.length ∧
        (user_input.length ≤ 50 → t = user_input)) ∧
      (¬(current_conv.title = "New Conversation" ∨ current_conv.title = "") →
        t = current_conv.title) := by
  have hpid : current_conv.id = current_conv_id := by
    simpa using List.find?_some hfind
  have tprop :
      ((current_conv.title = "New Conversation" ∨ current_conv.title = "") →
        (if current_conv.title = "New Conversation" ∨ current_conv.title = ""
          then user_input.take 50 else current_conv.title) = user_input.take 50 ∧
        (if current_conv.title = "New Conversation" ∨ current_conv.title = ""
          then user_input.take 50 else current_conv.title).length =
          min 50 user_input.length ∧
        (user_input.length ≤ 50 →
          (if current_conv.title = "New Conversation" ∨ current_conv.title = ""
            then user_input.take 50 else current_conv.title) = user_input)) ∧
      (¬(current_conv.title = "New Conversation" ∨ current_conv.title = "") →
        (if current_conv.title = "New Conversation" ∨ current_conv.title = ""
          then user_input.take 50 else current_conv.title) =
          current_conv.title) := by
    constructor
    · intro hpl
      rw [if_pos hpl]
      exact ⟨rfl, string_length_take user_input 50,
        fun hle => string_take_of_length_le user_input 50 hle⟩
    · intro hpl
      rw [if_neg hpl]
  cases response with
  | none =>
    exact ⟨_, _, current_conv.messages ++ [⟨"user", user_input⟩],
      display_chat_eq_none conversations current_conv current_conv_id
        user_input instructions model hfind,
      find?_updateFirst _ _ _ _ hfind (by simp [hpid]), tprop.1, tprop.2⟩
  | some r =>
    by_cases hr : r = ""
    · subst hr
      exact ⟨_, _, current_conv.messages ++ [⟨"user", user_input⟩],
        display_chat_eq_empty_response conversations current_conv
          current_conv_id user_input instructions model hfind,
        find?_updateFirst _ _ _ _ hfind (by simp [hpid]), tprop.1, tprop.2⟩
    · exact ⟨_, _,
        current_conv.messages ++ [⟨"user", user_input⟩] ++ [⟨"assistant", r⟩],
        display_chat_eq_some conversations current_conv current_conv_id
          user_input instructions model r hr hfind,
        find?_updateFirst _ _ _ _ hfind (by simp [hpid]), tprop.1, tprop.2⟩

/-- Witness for the amended claim C4: the placeholder-titled conversation is
renamed to the short first message "gg #4" as-is. -/
theorem display_chat_title_update_witness :
    display_chat [⟨"a", "New Conversation", []⟩] "a" "gg #4" "inst" "sonar"
        (some "ok") =
      .ok ⟨[⟨"a", "gg #4", [⟨"user", "gg #4"⟩, ⟨"assistant", "ok"⟩]⟩],
        [⟨"user", "gg #4"⟩, ⟨"assistant", "ok"⟩],
        [⟨"system", "inst"⟩, ⟨"user", "gg #4"⟩],
        ⟨"sonar", [⟨"system", "inst"⟩, ⟨"user", "gg #4"⟩], 4000, 0.2, 0.9, false⟩,
        false⟩ := by
  have h := display_chat_title_update [⟨"a", "New Conversation", []⟩]
    ⟨"a", "New Conversation", []⟩ "a" "gg #4" "inst" "sonar" (some "ok")
    (by decide)
  rfl

/-- Claim C5: the request payload of a chat turn is one leading system message
carrying the active instructions, followed by the full message history of the
current conversation in order (which at call time ends with the just-appended
user message), with the fixed parameters max_tokens 4000, temperature 0.2,
top_p 0.9 and stream false. -/
theorem display_chat_request_payload (conversations : List Conversation)
    (current_conv : Conversation)
    (current_conv_id user_input instructions model : String)
    (response : Option String)
    (hfind : conversations.find? (fun c => c.id = current_conv_id) =
      some current_conv) :
    ∃ turn,
      display_chat conversations current_conv_id user_input instructions model
          response = .ok turn ∧
      turn.api_messages = Message.mk "system" instructions ::
        (current_conv.messages ++ [⟨"user", user_input⟩]) ∧
      turn.request =
        { model := model
          messages := Message.mk "system" instructions ::
            (current_conv.messages ++ [⟨"user", user_input⟩])
          max_tokens := 4000
          temperature := 0.2
          top_p := 0.9
          stream := false } := by
  cases response with
  | none =>
    exact ⟨_, display_chat_eq_none conversations current_conv current_conv_id
      user_input instructions model hfind, rfl, rfl⟩
  | some r =>
    by_cases hr : r = ""
    · subst hr
      exact ⟨_, display_chat_eq_empty_response conversations current_conv
        current_conv_id user_input instructions model hfind, rfl, rfl⟩
    · exact ⟨_, display_chat_eq_some conversations current_conv current_conv_id
        user_input instructions model r hr hfind, rfl, rfl⟩

/-- Witness for claim C5: a non-placeholder conversation with an existing
exchange; the request resends the full history behind the system message with
the fixed parameters. -/
theorem display_chat_request_payload_witness :
    display_chat [⟨"a", "t0", [⟨"user", "q1"⟩, ⟨"assistant", "a1"⟩]⟩] "a" "q2"
        "inst" "sonar-pro" (some "a2") =
      .ok ⟨[⟨"a", "t0", [⟨"user", "q1"⟩, ⟨"assistant", "a1"⟩, ⟨"user", "q2"⟩,
          ⟨"assistant", "a2"⟩]⟩],
        [⟨"user", "q1"⟩, ⟨"assistant", "a1"⟩, ⟨"user", "q2"⟩, ⟨"assistant", "a2"⟩],
        [⟨"system", "inst"⟩, ⟨"user", "q1"⟩, ⟨"assistant", "a1"⟩, ⟨"user", "q2"⟩],
        ⟨"sonar-pro", [⟨"system", "inst"⟩, ⟨"user", "q1"⟩, ⟨"assistant", "a1"⟩,
          ⟨"user", "q2"⟩], 4000, 0.2, 0.9, false⟩,
        false⟩ := by
  have h := display_chat_request_payload
    [⟨"a", "t0", [⟨"user", "q1"⟩, ⟨"assistant", "a1"⟩]⟩]
    ⟨"a", "t0", [⟨"user", "q1"⟩, ⟨"assistant", "a1"⟩]⟩ "a" "q2" "inst"
    "sonar-pro" (some "a2") (by decide)
  rfl

/-! ### Claim C6 -/

theorem filter_ne_eq_erase (conversations : List Conversation)
    (conv : Conversation)
    (hnd : (conversations.map Conversation.id).Nodup) (hmem : conv ∈ conversations) :
    conversations.filter (fun c => ¬ c.id = conv.id) = conversations.erase conv := by
  induction conversations with
  | nil => cases hmem
  | cons d rest ih =>
    rw [List.map_cons, List.nodup_cons] at hnd
    obtain ⟨hdid, hnd'⟩ := hnd
    rcases List.mem_cons.1 hmem with rfl | hmem'
    · rw [List.filter_cons, if_neg (by simp), List.erase_cons_head]
      apply List.filter_eq_self.2
      intro a ha
      have : a.id ≠ conv.id := fun h => hdid (h ▸ List.mem_map_of_mem _ ha)
      simpa using this
    · have hne : d.id ≠ conv.id :=
        fun h => hdid (h ▸ List.mem_map_of_mem _ hmem')
      have hdconv : d ≠ conv := fun h => hne (congrArg Conversation.id h)
      rw [List.filter_cons, if_pos (by simpa using hne),
        List.erase_cons_tail (by simpa using hdconv), ih hnd' hmem']

/-- Claim C6: deleting the current conversation (with unique ids, the entry
`conv`) removes exactly that entry; if other conversations remain the first
remaining one becomes current (with its messages synced); if none remain,
exactly one synthesized empty conversation titled "New Conversation" is
selected.  The returned list is also what is handed to `save_conversations`. -/
theorem delete_conversation_spec (conversations : List Conversation)
    (conv : Conversation) (new_id : String)
    (hnd : (conversations.map Conversation.id).Nodup) (hmem : conv ∈ conversations) :
    (conversations.erase conv = [] →
      delete_conversation conversations conv.id new_id =
        ([⟨new_id, "New Conversation", []⟩], new_id, [])) ∧
    (∀ d rest, conversations.erase conv = d :: rest →
      delete_conversation conversations conv.id new_id =
        (d :: rest, d.id, d.messages)) := by
  have hfe := filter_ne_eq_erase conversations conv hnd hmem
  constructor
  · intro h0
    unfold delete_conversation
    rw [hfe, h0]
  · intro d rest h0
    unfold delete_conversation
    rw [hfe, h0]

/-- Witness for claim C6, running the claim's scenario: with conversations A
(current) and B, deleting A selects B; deleting B from the remaining list then
yields a single fresh empty placeholder conversation. -/
theorem delete_conversation_spec_witness :
    delete_conversation [⟨"A", "one", []⟩, ⟨"B", "two", [⟨"user", "hi"⟩]⟩]
        "A" "uC" =
      ([⟨"B", "two", [⟨"user", "hi"⟩]⟩], "B", [⟨"user", "hi"⟩]) ∧
    delete_conversation [⟨"B", "two", [⟨"user", "hi"⟩]⟩] "B" "uC" =
      ([⟨"uC", "New Conversation", []⟩], "uC", []) := by
  constructor
  · exact (delete_conversation_spec
      [⟨"A", "one", []⟩, ⟨"B", "two", [⟨"user", "hi"⟩]⟩] ⟨"A", "one", []⟩ "uC"
      (by decide) (by decide)).2 ⟨"B", "two", [⟨"user", "hi"⟩]⟩ [] (by decide)
  · exact (delete_conversation_spec [⟨"B", "two", [⟨"user", "hi"⟩]⟩]
      ⟨"B", "two", [⟨"user", "hi"⟩]⟩ "uC" (by decide) (by decide)).1 (by decide)
